import Mathlib

/-
Verification of the invoice-digitisation prototype.

The client code (App component and gemini service) is embedded shallowly:

* JavaScript numbers are modelled by the rationals, extended with a NaN
  element (`JsNum`) where the code can actually meet `undefined` in
  arithmetic (reading the optional `taxAmount` field of a response).
* Runtime response values follow the declared response schema: fields not
  in the schema's `required` list (`dueDate`, `taxAmount`, `notes`) are
  `Option`-valued; the rest match the TypeScript `InvoiceData` interface.
* Stateful React handlers (`handleFileSelect`, `handleDigitize`) become
  pure functions from the component state (plus the outcome of the awaited
  service call) to the new state; the boolean returned alongside the state
  records whether the outbound `digitizeInvoice` call was made.
* Platform APIs (`JSON.parse`, `Intl.NumberFormat`) are not repository
  code: `JSON.parse` is a parameter producing a JSON value, and the
  en-US currency formatter is modelled as a two-fraction-digit rendering
  with the currency displayed in front.
-/

/-- A JavaScript number as it occurs in the arithmetic of the totals
reconciliation: either a genuine (rational) number or NaN, which arises
when an absent (`undefined`) field enters arithmetic. -/
inductive JsNum where
  | num (q : ℚ)
  | nan
deriving DecidableEq

/-- JS addition: NaN propagates. -/
def JsNum.add : JsNum → JsNum → JsNum
  | .num a, .num b => .num (a + b)
  | _, _ => .nan

/-- JS subtraction: NaN propagates. -/
def JsNum.sub : JsNum → JsNum → JsNum
  | .num a, .num b => .num (a - b)
  | _, _ => .nan

/-- JS `Math.abs`: NaN propagates. -/
def JsNum.abs : JsNum → JsNum
  | .num a => .num |a|
  | .nan => .nan

/-- JS `x > t` for a number or NaN on the left: any comparison with NaN
is false. -/
def JsNum.gtThreshold : JsNum → ℚ → Bool
  | .num a, t => decide (t < a)
  | .nan, _ => false

/-- Reading a possibly-absent numeric field (`data.taxAmount`): an absent
field reads as `undefined`, which becomes NaN in arithmetic. -/
def jsReadNum : Option ℚ → JsNum
  | some q => .num q
  | none => .nan

/-- JS `s || fallback` on a possibly-absent string: `undefined` and the
empty string are falsy. -/
def jsOrString (o : Option String) (fallback : String) : String :=
  match o with
  | some s => if s = "" then fallback else s
  | none => fallback

/-- JS `s || null` on a possibly-absent string. -/
def jsOrNull (o : Option String) : Option String :=
  match o with
  | some s => if s = "" then none else some s
  | none => none

/-- One billed line of the invoice (interface `LineItem` in types.ts). -/
structure LineItem where
  description : String
  quantity : ℚ
  unitPrice : ℚ
  amount : ℚ
deriving DecidableEq

/-- The structured invoice value as it exists at runtime after
`JSON.parse`: the fields in the response schema's `required` list are
plain, the others (`dueDate`, `taxAmount`, `notes`) may be absent. -/
structure InvoiceData where
  vendorName : String
  invoiceNumber : String
  invoiceDate : String
  dueDate : Option String
  totalAmount : ℚ
  taxAmount : Option ℚ
  currency : String
  lineItems : List LineItem
  notes : Option String
deriving DecidableEq

/-- Is `c` an ASCII letter (the character class `[a-zA-Z]`)? -/
def isAsciiAlpha (c : Char) : Bool :=
  (97 ≤ c.toNat && c.toNat ≤ 122) || (65 ≤ c.toNat && c.toNat ≤ 90)

/-- The regular-expression test `/^[a-zA-Z]{3}$/.test code`. -/
def matchesThreeAlpha (code : String) : Bool :=
  code.length == 3 && code.data.all isAsciiAlpha

/-- JS `String.prototype.toUpperCase` restricted to one character; on the
ASCII letters (the only characters that reach it here) it subtracts 32
from a lower-case code point. -/
def jsCharUpper (c : Char) : Char :=
  if 97 ≤ c.toNat ∧ c.toNat ≤ 122 then Char.ofNat (c.toNat - 32) else c

/-- JS `code.toUpperCase()` (character-wise). -/
def jsToUpperCase (s : String) : String :=
  ⟨s.data.map jsCharUpper⟩

/-- `getSafeCurrencyCode` from the App component: keep an uppercased
3-ASCII-letter code, otherwise (or when the argument is absent or empty,
hence falsy) fall back to the fixed default code. -/
def getSafeCurrencyCode (code : Option String) : String :=
  match code with
  | some c => if c ≠ "" ∧ matchesThreeAlpha c = true then jsToUpperCase c else "MYR"
  | none => "MYR"

/-- Does the output look like `^[A-Z]{3}$`? -/
def matchesThreeUpper (s : String) : Bool :=
  s.length == 3 && s.data.all (fun c => 65 ≤ c.toNat && c.toNat ≤ 90)

/-- Decimal rendering of a natural number. -/
def natStr (n : Nat) : String :=
  String.mk (Nat.toDigits 10 n)

/-- The number of cents of a nonnegative amount, rounded to the nearest
cent. -/
def centsOf (q : ℚ) : Nat :=
  (⌊q * 100 + 1 / 2⌋ : ℤ).toNat

/-- A nonnegative rational rendered with exactly two fraction digits
(rounding to the nearest cent), as `Intl.NumberFormat` with the default
two fraction digits does for currency amounts. -/
def decimal2 (q : ℚ) : String :=
  natStr (centsOf q / 100) ++ "." ++
    (if centsOf q % 100 < 10 then "0" ++ natStr (centsOf q % 100)
     else natStr (centsOf q % 100))

/-- Modelled from the platform `Intl.NumberFormat` (locale en-US, style
currency): the currency indicator in front of the two-fraction-digit
amount; USD is displayed with its symbol, other codes with the code and
a space. -/
def intlCurrency (code : String) (q : ℚ) : String :=
  (if code = "USD" then "$" else code ++ " ") ++ decimal2 q

/-- Currency formatting of a possibly-NaN value. -/
def fmtJsNum (code : String) : JsNum → String
  | .num q => intlCurrency code q
  | .nan => code ++ " NaN"

/-- `lineItems.reduce((sum, item) => sum + item.amount, 0)`. -/
def lineItemsTotal (items : List LineItem) : ℚ :=
  items.foldl (fun acc it => acc + it.amount) 0

/-- `lineItemsTotal + data.taxAmount` as JS evaluates it: an absent
`taxAmount` turns the sum into NaN. -/
def calculatedTotal (d : InvoiceData) : JsNum :=
  JsNum.add (.num (lineItemsTotal d.lineItems)) (jsReadNum d.taxAmount)

/-- `Math.abs(calculatedTotal - data.totalAmount)`. -/
def totalsDifference (d : InvoiceData) : JsNum :=
  JsNum.abs (JsNum.sub (calculatedTotal d) (.num d.totalAmount))

/-- The warning message assembled in `handleDigitize`. -/
def warningMessage (d : InvoiceData) : String :=
  "The sum of extracted line items plus tax (" ++
    fmtJsNum (getSafeCurrencyCode (some d.currency)) (calculatedTotal d) ++
    ") does not match the invoice total (" ++
    fmtJsNum (getSafeCurrencyCode (some d.currency)) (.num d.totalAmount) ++
    "). Please review the extracted data."

/-- The client-side totals validation of `handleDigitize` (lines
486-497): the derived discrepancy warning, `none` when the difference is
not above the 0.01 epsilon (in particular whenever it is NaN). -/
def reconcile (d : InvoiceData) : Option String :=
  if JsNum.gtThreshold (totalsDifference d) (1 / 100) then
    some (warningMessage d)
  else
    none

/-- A selected image file, identified abstractly by its name. -/
abbrev ImageFile := String

/-- The App component's state variables touched by the handlers. -/
structure AppState where
  imageFile : Option ImageFile
  apiKey : String
  extractedData : Option InvoiceData
  isLoading : Bool
  error : Option String
  discrepancyWarning : Option String
  aiNote : Option String
deriving DecidableEq

/-- The outcome of the awaited `digitizeInvoice` call as `handleDigitize`
observes it: a resolved invoice value, a rejection with an `Error` whose
message is surfaced, or a rejection with a non-`Error` value. -/
inductive DigitizeOutcome where
  | ok (data : InvoiceData)
  | errMsg (msg : String)
  | errUnknown
deriving DecidableEq

/-- `handleFileSelect`: record the file and clear result, error, warning
and AI note. -/
def handleFileSelect (s : AppState) (file : ImageFile) : AppState :=
  { s with imageFile := some file, extractedData := none, error := none,
           discrepancyWarning := none, aiNote := none }

/-- `handleDigitize` as a state transformer. The second component records
whether the outbound `digitizeInvoice` call was made; `outcome` is only
reached on that path. -/
def handleDigitize (s : AppState) (outcome : DigitizeOutcome) : AppState × Bool :=
  if s.imageFile = none then
    ({ s with error := some "Please upload an invoice image first." }, false)
  else if s.apiKey = "" then
    ({ s with error := some "Please enter your Gemini API key before digitizing." }, false)
  else
    let s1 : AppState :=
      { s with isLoading := true, error := none, extractedData := none,
               discrepancyWarning := none, aiNote := none }
    match outcome with
    | .ok data =>
      if data.vendorName = "Invalid Document" then
        ({ s1 with
            error := some (jsOrString data.notes
              "The uploaded image does not appear to be a valid invoice. Please try another image."),
            extractedData := none, isLoading := false }, true)
      else
        ({ s1 with
            extractedData := some data,
            aiNote := jsOrNull data.notes,
            discrepancyWarning := reconcile data,
            isLoading := false }, true)
    | .errMsg m => ({ s1 with error := some m, isLoading := false }, true)
    | .errUnknown =>
      ({ s1 with error := some "An unknown error occurred during digitization.",
                 isLoading := false }, true)

/-- A JSON value, the result of a successful `JSON.parse`. -/
inductive Json where
  | null
  | bool (b : Bool)
  | num (q : ℚ)
  | str (s : String)
  | arr (elems : List Json)
  | obj (fields : List (String × Json))

/-- The error taxonomy of the extraction client. -/
inductive GeminiError where
  | config (msg : String)
  | transport (msg : String)
  | parseFailure (msg : String)
deriving DecidableEq

/-- What one call of `digitizeInvoice` did: its result, whether the
outbound request was issued, and the raw response text written to the
console on a parse failure. -/
structure DigitizeTrace where
  result : Except GeminiError Json
  networkCalled : Bool
  loggedRaw : Option String

/-- The fixed message of the parse-failure error. -/
def parseFailMsg : String :=
  "Failed to parse invoice data. The AI model returned an unexpected format."

/-- `digitizeInvoice` from geminiService.ts. `transport` is the outcome
of the awaited `generateContent` call (its response text, or the message
of a thrown transport error); `jsonParse` models the platform
`JSON.parse`, returning the parsed value or `none` when it throws. The
returned value is the parsed JSON unchanged: the `as InvoiceData` cast
performs no runtime validation. -/
def digitizeInvoice (apiKey : String) (transport : Except String String)
    (jsonParse : String → Option Json) : DigitizeTrace :=
  if apiKey = "" then
    ⟨.error (.config "Gemini API key is not set. Please enter your API key."), false, none⟩
  else
    match transport with
    | .error m => ⟨.error (.transport m), true, none⟩
    | .ok text =>
      match jsonParse text.trim with
      | some v => ⟨.ok v, true, none⟩
      | none => ⟨.error (.parseFailure parseFailMsg), true, some text⟩

/-- Field lookup in a JSON object. -/
def lookupField (fields : List (String × Json)) (k : String) : Option Json :=
  (fields.find? (fun p => p.1 == k)).map (fun p => p.2)

/-- Is field `k` present with a string value? -/
def isStringField (fields : List (String × Json)) (k : String) : Bool :=
  match lookupField fields k with
  | some (.str _) => true
  | _ => false

/-- Is field `k` present with a numeric value? -/
def isNumberField (fields : List (String × Json)) (k : String) : Bool :=
  match lookupField fields k with
  | some (.num _) => true
  | _ => false

/-- Is field `k` absent, or present with a string value? -/
def isOptStringField (fields : List (String × Json)) (k : String) : Bool :=
  match lookupField fields k with
  | some (.str _) => true
  | none => true
  | _ => false

/-- Is field `k` absent, or present with a numeric value? -/
def isOptNumberField (fields : List (String × Json)) (k : String) : Bool :=
  match lookupField fields k with
  | some (.num _) => true
  | none => true
  | _ => false

/-- Does a JSON value match the line-item object of the declared response
schema (all four fields required)? -/
def isLineItemJson : Json → Bool
  | .obj fs =>
    isStringField fs "description" && isNumberField fs "quantity" &&
      isNumberField fs "unitPrice" && isNumberField fs "amount"
  | _ => false

/-- Does a JSON value match the declared response schema (the expected
structure of a response: required string fields, numeric total, line-item
array, with `dueDate`, `taxAmount` and `notes` optional)? -/
def isExpectedShape : Json → Bool
  | .obj fs =>
    isStringField fs "vendorName" && isStringField fs "invoiceNumber" &&
      isStringField fs "invoiceDate" && isOptStringField fs "dueDate" &&
      isNumberField fs "totalAmount" && isOptNumberField fs "taxAmount" &&
      isStringField fs "currency" &&
      (match lookupField fs "lineItems" with
       | some (.arr xs) => xs.all isLineItemJson
       | _ => false) &&
      isOptStringField fs "notes"
  | _ => false

/-- Does the first character list start with the second? -/
def startsWithList : List Char → List Char → Bool
  | _, [] => true
  | [], _ :: _ => false
  | h :: hs, n :: ns => h == n && startsWithList hs ns

/-- Does the first character list contain the second as a contiguous run? -/
def containsList : List Char → List Char → Bool
  | [], needle => needle.isEmpty
  | h :: hs, needle => startsWithList (h :: hs) needle || containsList hs needle

/-- Substring test: does `hay` contain `needle`? -/
def strContains (hay needle : String) : Bool :=
  containsList hay.data needle.data

/-- A `JSON.parse` behaviour: every text it receives parses to the empty
JSON object, as the platform `JSON.parse` does on the text `"\x7b\x7d"`
of the counterexample response. -/
def parseEmptyObj : String → Option Json :=
  fun _ => some (Json.obj [])

/-- A `JSON.parse` behaviour that throws on every text. -/
def parseNothing : String → Option Json :=
  fun _ => none

/-- A Ready state: a file is selected, a credential is saved, nothing is
in flight and no derived state is populated. -/
def readyState : AppState :=
  { imageFile := some "invoice.png", apiKey := "key", extractedData := none,
    isLoading := false, error := none, discrepancyWarning := none, aiNote := none }

/-- The worked example of the spec: one line item Widget, 2 × 10 = 20,
tax 1.5, with the matching stated total 21.5. -/
def exampleInvoice21 : InvoiceData :=
  { vendorName := "Acme", invoiceNumber := "INV-1", invoiceDate := "2024-01-01",
    dueDate := none, totalAmount := 43 / 2, taxAmount := some (3 / 2),
    currency := "USD", lineItems := [⟨"Widget", 2, 10, 20⟩], notes := none }

/-- The worked example with the mismatching stated total 25. -/
def exampleInvoice25 : InvoiceData :=
  { exampleInvoice21 with totalAmount := 25 }

/-- A response with the `taxAmount` field absent and a stated total far
from the line-item sum. -/
def absentTaxInvoice : InvoiceData :=
  { vendorName := "Acme", invoiceNumber := "INV-2", invoiceDate := "2024-01-02",
    dueDate := none, totalAmount := 100, taxAmount := none,
    currency := "USD", lineItems := [⟨"Widget", 1, 20, 20⟩], notes := none }

/-- A sentinel response marked as a non-invoice, with an explanation. -/
def sentinelInvoice : InvoiceData :=
  { vendorName := "Invalid Document", invoiceNumber := "", invoiceDate := "",
    dueDate := none, totalAmount := 0, taxAmount := some 0,
    currency := "USD", lineItems := [], notes := some "The image is a cat photo." }

/-- An Idle state: no file selected yet. -/
def noFileState : AppState :=
  { readyState with imageFile := none }

/-- A state with a file but an empty credential. -/
def noKeyState : AppState :=
  { readyState with apiKey := "" }

lemma charOfNat_toNat_small : ∀ n : Nat, n < 128 → (Char.ofNat n).toNat = n := by decide

lemma jsCharUpper_bounds (c : Char) (h : isAsciiAlpha c = true) :
    65 ≤ (jsCharUpper c).toNat ∧ (jsCharUpper c).toNat ≤ 90 := by
  simp only [isAsciiAlpha, Bool.or_eq_true, Bool.and_eq_true, decide_eq_true_eq] at h
  by_cases hc : 97 ≤ c.toNat ∧ c.toNat ≤ 122
  · rw [jsCharUpper, if_pos hc, charOfNat_toNat_small _ (by omega)]
    omega
  · rw [jsCharUpper, if_neg hc]
    rcases h with h | h
    · exact absurd h hc
    · omega

lemma matchesThreeUpper_jsToUpperCase (s : String) (h : matchesThreeAlpha s = true) :
    matchesThreeUpper (jsToUpperCase s) = true := by
  simp only [matchesThreeAlpha, Bool.and_eq_true, beq_iff_eq, List.all_eq_true] at h
  simp only [matchesThreeUpper, jsToUpperCase, Bool.and_eq_true, beq_iff_eq, List.all_eq_true]
  constructor
  · show (s.data.map jsCharUpper).length = 3
    rw [List.length_map]
    exact h.1
  · intro c hc
    rw [List.mem_map] at hc
    obtain ⟨a, ha, rfl⟩ := hc
    have := jsCharUpper_bounds a (h.2 a ha)
    simp only [Bool.and_eq_true, decide_eq_true_eq]
    omega

lemma handleDigitize_ok (s : AppState) (d : InvoiceData)
    (hf : s.imageFile ≠ none) (hk : s.apiKey ≠ "")
    (hv : d.vendorName ≠ "Invalid Document") :
    handleDigitize s (.ok d) =
      ({ s with isLoading := false, error := none, extractedData := some d,
                discrepancyWarning := reconcile d, aiNote := jsOrNull d.notes }, true) := by
  simp [handleDigitize, hf, hk, hv]

lemma handleDigitize_sentinel (s : AppState) (d : InvoiceData)
    (hf : s.imageFile ≠ none) (hk : s.apiKey ≠ "")
    (hv : d.vendorName = "Invalid Document") :
    handleDigitize s (.ok d) =
      ({ s with isLoading := false,
                error := some (jsOrString d.notes
                  "The uploaded image does not appear to be a valid invoice. Please try another image."),
                extractedData := none, discrepancyWarning := none, aiNote := none }, true) := by
  simp [handleDigitize, hf, hk, hv]

lemma totalsDifference_some (d : InvoiceData) (t : ℚ) (ht : d.taxAmount = some t) :
    totalsDifference d = .num |lineItemsTotal d.lineItems + t - d.totalAmount| := by
  simp [totalsDifference, calculatedTotal, jsReadNum, ht, JsNum.add, JsNum.sub, JsNum.abs]

lemma reconcile_eq_some_iff (d : InvoiceData) (t : ℚ) (ht : d.taxAmount = some t) :
    reconcile d = if 1 / 100 < |lineItemsTotal d.lineItems + t - d.totalAmount| then
      some (warningMessage d) else none := by
  rw [reconcile, totalsDifference_some d t ht]
  by_cases h : 1 / 100 < |lineItemsTotal d.lineItems + t - d.totalAmount|
  · rw [if_pos, if_pos h]
    simpa [JsNum.gtThreshold] using h
  · rw [if_neg, if_neg h]
    simpa [JsNum.gtThreshold] using h

/-- C1: for a non-sentinel result with a line-item list and a present
taxAmount, the handler sets a discrepancy warning exactly when the
absolute difference between totalAmount and (line-item sum + taxAmount)
exceeds 0.01, and sets none when it is within 0.01. -/
theorem c1_discrepancy_warning_iff (s : AppState) (f : ImageFile) (d : InvoiceData) (t : ℚ)
    (hf : s.imageFile = some f) (hk : s.apiKey ≠ "")
    (hv : d.vendorName ≠ "Invalid Document") (ht : d.taxAmount = some t) :
    ((handleDigitize s (.ok d)).1.discrepancyWarning ≠ none ↔
      1 / 100 < |d.totalAmount - (lineItemsTotal d.lineItems + t)|) ∧
    (|d.totalAmount - (lineItemsTotal d.lineItems + t)| ≤ 1 / 100 →
      (handleDigitize s (.ok d)).1.discrepancyWarning = none) := by
  have hf' : s.imageFile ≠ none := by rw [hf]; simp
  have hw : (handleDigitize s (.ok d)).1.discrepancyWarning =
      if 1 / 100 < |lineItemsTotal d.lineItems + t - d.totalAmount| then
        some (warningMessage d) else none := by
    rw [handleDigitize_ok s d hf' hk hv]
    exact reconcile_eq_some_iff d t ht
  rw [hw, abs_sub_comm d.totalAmount]
  by_cases h : 1 / 100 < |lineItemsTotal d.lineItems + t - d.totalAmount|
  · rw [if_pos h]
    exact ⟨⟨fun _ => h, fun _ => by simp⟩, fun hle => absurd h (not_lt.mpr hle)⟩
  · rw [if_neg h]
    exact ⟨⟨fun hne => absurd rfl hne, fun hlt => absurd hlt h⟩, fun _ => rfl⟩

/-- C1 witness: the claim theorem applied to the Ready state and the
worked 25-total example. -/
theorem c1_discrepancy_warning_iff_witness :
    readyState.imageFile = some "invoice.png" ∧ readyState.apiKey ≠ "" ∧
    exampleInvoice25.vendorName ≠ "Invalid Document" ∧
    exampleInvoice25.taxAmount = some (3 / 2) ∧
    (((handleDigitize readyState (.ok exampleInvoice25)).1.discrepancyWarning ≠ none ↔
        1 / 100 < |exampleInvoice25.totalAmount -
          (lineItemsTotal exampleInvoice25.lineItems + 3 / 2)|) ∧
      (|exampleInvoice25.totalAmount - (lineItemsTotal exampleInvoice25.lineItems + 3 / 2)| ≤
          1 / 100 →
        (handleDigitize readyState (.ok exampleInvoice25)).1.discrepancyWarning = none)) :=
  ⟨rfl, by decide, by decide, rfl,
    c1_discrepancy_warning_iff readyState "invoice.png" exampleInvoice25 (3 / 2)
      rfl (by decide) (by decide) rfl⟩

/-- C2: a sentinel Invalid Document response never populates the result,
sets no warning and no AI note, and sets the error to the nonempty notes
when given, else to the fixed fallback message (also when notes is the
empty string, which is falsy). -/
theorem c2_sentinel_rejection (s : AppState) (f : ImageFile) (d : InvoiceData)
    (hf : s.imageFile = some f) (hk : s.apiKey ≠ "")
    (hv : d.vendorName = "Invalid Document") :
    (handleDigitize s (.ok d)).1.extractedData = none ∧
    (handleDigitize s (.ok d)).1.discrepancyWarning = none ∧
    (handleDigitize s (.ok d)).1.aiNote = none ∧
    (∀ n, d.notes = some n → n ≠ "" → (handleDigitize s (.ok d)).1.error = some n) ∧
    (d.notes = none →
      (handleDigitize s (.ok d)).1.error = some
        "The uploaded image does not appear to be a valid invoice. Please try another image.") ∧
    (d.notes = some "" →
      (handleDigitize s (.ok d)).1.error = some
        "The uploaded image does not appear to be a valid invoice. Please try another image.") := by
  have hf' : s.imageFile ≠ none := by rw [hf]; simp
  rw [handleDigitize_sentinel s d hf' hk hv]
  refine ⟨rfl, rfl, rfl, ?_, ?_, ?_⟩
  · intro n hn hne
    simp [jsOrString, hn, hne]
  · intro hn
    simp [jsOrString, hn]
  · intro hn
    simp [jsOrString, hn]

/-- C2 witness: the claim theorem applied to a concrete sentinel
response carrying an explanation in its notes. -/
theorem c2_sentinel_rejection_witness :
    readyState.imageFile = some "invoice.png" ∧ readyState.apiKey ≠ "" ∧
    sentinelInvoice.vendorName = "Invalid Document" ∧
    ((handleDigitize readyState (.ok sentinelInvoice)).1.extractedData = none ∧
      (handleDigitize readyState (.ok sentinelInvoice)).1.discrepancyWarning = none ∧
      (handleDigitize readyState (.ok sentinelInvoice)).1.aiNote = none ∧
      (∀ n, sentinelInvoice.notes = some n → n ≠ "" →
        (handleDigitize readyState (.ok sentinelInvoice)).1.error = some n) ∧
      (sentinelInvoice.notes = none →
        (handleDigitize readyState (.ok sentinelInvoice)).1.error = some
          "The uploaded image does not appear to be a valid invoice. Please try another image.") ∧
      (sentinelInvoice.notes = some "" →
        (handleDigitize readyState (.ok sentinelInvoice)).1.error = some
          "The uploaded image does not appear to be a valid invoice. Please try another image.")) :=
  ⟨rfl, by decide, rfl,
    c2_sentinel_rejection readyState "invoice.png" sentinelInvoice rfl (by decide) rfl⟩

/-- C3 counterexample: a successful result with taxAmount absent and a
stated total 80 away from the line-item sum; the claim demands a warning
(the difference with tax read as 0 exceeds 0.01), but the code produces
none, because the absent field makes the comparison a NaN comparison. -/
theorem c3_counterexample :
    absentTaxInvoice.taxAmount = none ∧
    absentTaxInvoice.vendorName ≠ "Invalid Document" ∧
    (handleDigitize readyState (.ok absentTaxInvoice)).1.extractedData = some absentTaxInvoice ∧
    1 / 100 < |absentTaxInvoice.totalAmount - (lineItemsTotal absentTaxInvoice.lineItems + 0)| ∧
    (handleDigitize readyState (.ok absentTaxInvoice)).1.discrepancyWarning = none := by
  refine ⟨rfl, by decide, rfl, ?_, rfl⟩
  have hl : lineItemsTotal absentTaxInvoice.lineItems = 20 := by
    simp [lineItemsTotal, absentTaxInvoice]
  rw [hl, show absentTaxInvoice.totalAmount = (100 : ℚ) from rfl,
    show (100 : ℚ) - (20 + 0) = 80 by norm_num,
    abs_of_nonneg (by norm_num : (0 : ℚ) ≤ 80)]
  norm_num

/-- C3 amended: when taxAmount is absent from the response, the
client-side reconciliation never produces a warning (the NaN-valued
difference fails every comparison); the defaulting of a missing tax to 0
is requested of the extractor in the prompt, not applied by the client. -/
theorem c3_amended_no_warning (s : AppState) (f : ImageFile) (d : InvoiceData)
    (hf : s.imageFile = some f) (hk : s.apiKey ≠ "")
    (hv : d.vendorName ≠ "Invalid Document") (ht : d.taxAmount = none) :
    (handleDigitize s (.ok d)).1.discrepancyWarning = none := by
  have hf' : s.imageFile ≠ none := by rw [hf]; simp
  rw [handleDigitize_ok s d hf' hk hv]
  show reconcile d = none
  have hct : calculatedTotal d = .nan := by
    rw [calculatedTotal, ht]
    rfl
  rw [reconcile, totalsDifference, hct]
  rfl

/-- C3 witness: the amended theorem applied to the concrete
absent-taxAmount response. -/
theorem c3_amended_no_warning_witness :
    readyState.imageFile = some "invoice.png" ∧ readyState.apiKey ≠ "" ∧
    absentTaxInvoice.vendorName ≠ "Invalid Document" ∧
    absentTaxInvoice.taxAmount = none ∧
    (handleDigitize readyState (.ok absentTaxInvoice)).1.discrepancyWarning = none :=
  ⟨rfl, by decide, by decide, rfl,
    c3_amended_no_warning readyState "invoice.png" absentTaxInvoice rfl (by decide)
      (by decide) rfl⟩

/-- C4: with no selected file, or an empty credential, the digitize
handler sets a local error and returns without invoking the extraction
call; and the extraction client itself fails with the configuration
error, with no outbound request, when the credential is empty. -/
theorem c4_local_failure_no_call :
    (∀ (s : AppState) (o : DigitizeOutcome), s.imageFile = none →
      handleDigitize s o =
        ({ s with error := some "Please upload an invoice image first." }, false)) ∧
    (∀ (s : AppState) (f : ImageFile) (o : DigitizeOutcome),
      s.imageFile = some f → s.apiKey = "" →
      handleDigitize s o =
        ({ s with error := some "Please enter your Gemini API key before digitizing." }, false)) ∧
    (∀ (tr : Except String String) (p : String → Option Json),
      (digitizeInvoice "" tr p).networkCalled = false ∧
      (digitizeInvoice "" tr p).result =
        .error (.config "Gemini API key is not set. Please enter your API key.")) := by
  refine ⟨?_, ?_, ?_⟩
  · intro s o h
    simp [handleDigitize, h]
  · intro s f o hf hk
    simp [handleDigitize, hf, hk]
  · intro tr p
    exact ⟨rfl, rfl⟩

/-- C4 witness: the claim theorem applied to a state without a file, a
state without a credential, and a call with an empty credential. -/
theorem c4_local_failure_no_call_witness :
    noFileState.imageFile = none ∧
    handleDigitize noFileState .errUnknown =
      ({ noFileState with error := some "Please upload an invoice image first." }, false) ∧
    noKeyState.imageFile = some "invoice.png" ∧ noKeyState.apiKey = "" ∧
    handleDigitize noKeyState .errUnknown =
      ({ noKeyState with error := some "Please enter your Gemini API key before digitizing." },
        false) ∧
    (digitizeInvoice "" (.ok "text") parseNothing).networkCalled = false :=
  ⟨rfl, c4_local_failure_no_call.1 noFileState .errUnknown rfl, rfl, rfl,
    c4_local_failure_no_call.2.1 noKeyState "invoice.png" .errUnknown rfl rfl,
    (c4_local_failure_no_call.2.2 (.ok "text") parseNothing).1⟩

/-- C5: an input that fails the three-letter test, or an absent input,
makes the sanitizer return the fixed default code, itself a valid
3-letter code, with no failure. -/
theorem c5_invalid_code_fallback :
    (∀ c : String, matchesThreeAlpha c = false → getSafeCurrencyCode (some c) = "MYR") ∧
    getSafeCurrencyCode none = "MYR" ∧
    matchesThreeUpper "MYR" = true := by
  refine ⟨?_, rfl, by decide⟩
  intro c h
  show (if c ≠ "" ∧ matchesThreeAlpha c = true then jsToUpperCase c else "MYR") = "MYR"
  rw [if_neg]
  rintro ⟨-, hm⟩
  rw [h] at hm
  exact Bool.false_ne_true hm

/-- C5 witness: the claim theorem applied to an input failing the
pattern. -/
theorem c5_invalid_code_fallback_witness :
    matchesThreeAlpha "us1" = false ∧ getSafeCurrencyCode (some "us1") = "MYR" :=
  ⟨by decide, c5_invalid_code_fallback.1 "us1" (by decide)⟩

/-- C6: selecting a file records it and clears result, error, warning
and AI note, whatever was present before. -/
theorem c6_file_select_clears (s : AppState) (f : ImageFile) :
    (handleFileSelect s f).imageFile = some f ∧
    (handleFileSelect s f).extractedData = none ∧
    (handleFileSelect s f).error = none ∧
    (handleFileSelect s f).discrepancyWarning = none ∧
    (handleFileSelect s f).aiNote = none :=
  ⟨rfl, rfl, rfl, rfl, rfl⟩

lemma centsOf_2150 : centsOf (43 / 2) = 2150 := by
  have e : ⌊(43 / 2 : ℚ) * 100 + 1 / 2⌋ = (2150 : ℤ) := by
    rw [Int.floor_eq_iff]
    constructor <;> norm_num
  rw [centsOf, e]
  rfl

lemma centsOf_2500 : centsOf (25 : ℚ) = 2500 := by
  have e : ⌊(25 : ℚ) * 100 + 1 / 2⌋ = (2500 : ℤ) := by
    rw [Int.floor_eq_iff]
    constructor <;> norm_num
  rw [centsOf, e]
  rfl

lemma decimal2_2150 : decimal2 (43 / 2) = "21.50" := by
  rw [decimal2, centsOf_2150]
  decide

lemma decimal2_2500 : decimal2 (25 : ℚ) = "25.00" := by
  rw [decimal2, centsOf_2500]
  decide

lemma warningMessage_example25 :
    warningMessage exampleInvoice25 =
      "The sum of extracted line items plus tax ($21.50) does not match the invoice total ($25.00). Please review the extracted data." := by
  have hcalc : calculatedTotal exampleInvoice25 = .num (43 / 2) := by
    rw [calculatedTotal, show exampleInvoice25.taxAmount = some (3 / 2) from rfl]
    show JsNum.num (lineItemsTotal exampleInvoice25.lineItems + 3 / 2) = JsNum.num (43 / 2)
    have hl : lineItemsTotal exampleInvoice25.lineItems = 20 := by
      simp [lineItemsTotal, exampleInvoice25, exampleInvoice21]
    rw [hl]
    norm_num
  rw [warningMessage, hcalc,
    show getSafeCurrencyCode (some exampleInvoice25.currency) = "USD" from by decide,
    show exampleInvoice25.totalAmount = (25 : ℚ) from rfl]
  simp only [fmtJsNum, intlCurrency, if_true, eq_self_iff_true]
  rw [decimal2_2150, decimal2_2500]
  decide

/-- C7: on the worked example (one Widget line 2 x 10 = 20, tax 1.5),
a stated total of 21.5 yields no warning, and a stated total of 25
yields a warning whose message shows the computed total as 21.50 and the
stated total as 25.00. -/
theorem c7_worked_example :
    (handleDigitize readyState (.ok exampleInvoice21)).1.discrepancyWarning = none ∧
    ((handleDigitize readyState (.ok exampleInvoice25)).1.discrepancyWarning).isSome = true ∧
    strContains
      (((handleDigitize readyState (.ok exampleInvoice25)).1.discrepancyWarning).getD "")
      "21.50" = true ∧
    strContains
      (((handleDigitize readyState (.ok exampleInvoice25)).1.discrepancyWarning).getD "")
      "25.00" = true := by
  have h21 : (handleDigitize readyState (.ok exampleInvoice21)).1.discrepancyWarning = none := by
    rw [handleDigitize_ok readyState exampleInvoice21 (by decide) (by decide) (by decide)]
    show reconcile exampleInvoice21 = none
    have hl : lineItemsTotal exampleInvoice21.lineItems = 20 := by
      simp [lineItemsTotal, exampleInvoice21]
    have hD : |lineItemsTotal exampleInvoice21.lineItems + 3 / 2 -
        exampleInvoice21.totalAmount| = 0 := by
      rw [hl, show exampleInvoice21.totalAmount = (43 / 2 : ℚ) from rfl]
      norm_num
    rw [reconcile_eq_some_iff exampleInvoice21 (3 / 2) rfl, hD, if_neg (by norm_num)]
  have h25 : (handleDigitize readyState (.ok exampleInvoice25)).1.discrepancyWarning =
      some (warningMessage exampleInvoice25) := by
    rw [handleDigitize_ok readyState exampleInvoice25 (by decide) (by decide) (by decide)]
    show reconcile exampleInvoice25 = some (warningMessage exampleInvoice25)
    have hl : lineItemsTotal exampleInvoice25.lineItems = 20 := by
      simp [lineItemsTotal, exampleInvoice25, exampleInvoice21]
    have hD : |lineItemsTotal exampleInvoice25.lineItems + 3 / 2 -
        exampleInvoice25.totalAmount| = 7 / 2 := by
      rw [hl, show exampleInvoice25.totalAmount = (25 : ℚ) from rfl,
        show (20 : ℚ) + 3 / 2 - 25 = -(7 / 2) by norm_num, abs_neg,
        abs_of_nonneg (by norm_num : (0 : ℚ) ≤ 7 / 2)]
    rw [reconcile_eq_some_iff exampleInvoice25 (3 / 2) rfl, hD, if_pos (by norm_num)]
  refine ⟨h21, ?_, ?_, ?_⟩ <;> rw [h25, warningMessage_example25] <;> decide

/-- C8 counterexample: the response text of two braces parses as the
empty JSON object, which is not the expected structure, yet
digitizeInvoice raises no parse error and returns it as the invoice
data: the cast performs no shape validation. -/
theorem c8_counterexample :
    isExpectedShape (Json.obj []) = false ∧
    (digitizeInvoice "key" (.ok "\x7b\x7d") parseEmptyObj).result = .ok (Json.obj []) ∧
    (digitizeInvoice "key" (.ok "\x7b\x7d") parseEmptyObj).loggedRaw = none :=
  ⟨rfl, rfl, rfl⟩

/-- C8 amended: digitizeInvoice fails with the fixed parse-failure
message, distinct from the transport and configuration errors, exactly
when `JSON.parse` throws on the trimmed response text, and then logs the
raw text for diagnosis; any JSON-parseable response is returned as the
invoice data without validation of its shape. -/
theorem c8_parse_error_behaviour (apiKey text : String) (p : String → Option Json)
    (hk : apiKey ≠ "") :
    (p text.trim = none →
      (digitizeInvoice apiKey (.ok text) p).result = .error (.parseFailure parseFailMsg) ∧
      (digitizeInvoice apiKey (.ok text) p).loggedRaw = some text ∧
      (∀ m, GeminiError.parseFailure parseFailMsg ≠ .transport m) ∧
      (∀ m, GeminiError.parseFailure parseFailMsg ≠ .config m)) ∧
    (∀ v, p text.trim = some v →
      (digitizeInvoice apiKey (.ok text) p).result = .ok v ∧
      (digitizeInvoice apiKey (.ok text) p).loggedRaw = none) := by
  constructor
  · intro hp
    refine ⟨?_, ?_, fun m => by simp, fun m => by simp⟩ <;>
      simp [digitizeInvoice, hk, hp]
  · intro v hp
    constructor <;> simp [digitizeInvoice, hk, hp]

/-- C8 witness: the amended theorem applied to a throwing parse on a
concrete unparseable text. -/
theorem c8_parse_error_behaviour_witness :
    ("key" : String) ≠ "" ∧ parseNothing ("oops".trim) = none ∧
    (digitizeInvoice "key" (.ok "oops") parseNothing).result =
      .error (.parseFailure parseFailMsg) ∧
    (digitizeInvoice "key" (.ok "oops") parseNothing).loggedRaw = some "oops" :=
  ⟨by decide, rfl,
    ((c8_parse_error_behaviour "key" "oops" parseNothing (by decide)).1 rfl).1,
    ((c8_parse_error_behaviour "key" "oops" parseNothing (by decide)).1 rfl).2.1⟩

/-- C9: a 3-ASCII-letter input is returned uppercased, and every output
of the sanitizer matches the uppercase three-letter pattern. -/
theorem c9_uppercase_normalisation :
    (∀ s : String, matchesThreeAlpha s = true → getSafeCurrencyCode (some s) = jsToUpperCase s) ∧
    (∀ o : Option String, matchesThreeUpper (getSafeCurrencyCode o) = true) := by
  constructor
  · intro s h
    have hne : s ≠ "" := by
      intro he
      subst he
      exact absurd h (by decide)
    show (if s ≠ "" ∧ matchesThreeAlpha s = true then jsToUpperCase s else "MYR") =
      jsToUpperCase s
    rw [if_pos ⟨hne, h⟩]
  · intro o
    rcases o with - | c
    · decide
    · show matchesThreeUpper
        (if c ≠ "" ∧ matchesThreeAlpha c = true then jsToUpperCase c else "MYR") = true
      by_cases hc : c ≠ "" ∧ matchesThreeAlpha c = true
      · rw [if_pos hc]
        exact matchesThreeUpper_jsToUpperCase c hc.2
      · rw [if_neg hc]
        decide

/-- C9 witness: the claim theorem applied to a lowercase code. -/
theorem c9_uppercase_normalisation_witness :
    matchesThreeAlpha "usd" = true ∧
    getSafeCurrencyCode (some "usd") = jsToUpperCase "usd" :=
  ⟨by decide, c9_uppercase_normalisation.1 "usd" (by decide)⟩

/-- C10: from a non-loading state (the trigger is disabled while
Processing), every completed run of the digitize handler, through any of
its paths, ends with the loading flag false, so loading-with-error or
loading-with-result is not observable at the end of an attempt. -/
theorem c10_loading_false_after (s : AppState) (o : DigitizeOutcome)
    (h : s.isLoading = false) :
    (handleDigitize s o).1.isLoading = false ∧
    ¬((handleDigitize s o).1.isLoading = true ∧
      ((handleDigitize s o).1.error ≠ none ∨ (handleDigitize s o).1.extractedData ≠ none)) := by
  have hmain : (handleDigitize s o).1.isLoading = false := by
    by_cases h1 : s.imageFile = none
    · simp [handleDigitize, h1, h]
    · by_cases h2 : s.apiKey = ""
      · simp [handleDigitize, h1, h2, h]
      · cases o with
        | ok d =>
          by_cases h3 : d.vendorName = "Invalid Document"
          · simp [handleDigitize, h1, h2, h3]
          · simp [handleDigitize, h1, h2, h3]
        | errMsg m => simp [handleDigitize, h1, h2]
        | errUnknown => simp [handleDigitize, h1, h2]
  refine ⟨hmain, fun hcontra => ?_⟩
  rw [hmain] at hcontra
  exact Bool.false_ne_true hcontra.1

/-- C10 witness: the claim theorem applied to the Ready state with a
rejected call. -/
theorem c10_loading_false_after_witness :
    readyState.isLoading = false ∧
    (handleDigitize readyState .errUnknown).1.isLoading = false :=
  ⟨rfl, (c10_loading_false_after readyState .errUnknown rfl).1⟩
